import Mathlib

/-!
Verification of the Stuff+ scoring and robust-aggregation engine of the
BonniesBaseball repository (file `pages/1_Player Lookup.py`), shallowly
embedded in Lean 4.  Machine floats are modelled as exact rationals
extended with a `NaN` element; the Python argument-order behaviour of
`min`/`max` on `NaN` is modelled exactly.  Line numbers in doc comments
refer to the source file.
-/

/-- Model of a Python float as used by the scoring code: either `NaN`
(the pandas missing-data sentinel) or an exact rational value. -/
inductive PF where
  | nan : PF
  | num : ℚ → PF
deriving DecidableEq

/-- Addition; `NaN` propagates, as in IEEE arithmetic. -/
def PF.add : PF → PF → PF
  | PF.num a, PF.num b => PF.num (a + b)
  | _, _ => PF.nan

/-- Subtraction; `NaN` propagates. -/
def PF.sub : PF → PF → PF
  | PF.num a, PF.num b => PF.num (a - b)
  | _, _ => PF.nan

/-- Multiplication; `NaN` propagates. -/
def PF.mul : PF → PF → PF
  | PF.num a, PF.num b => PF.num (a * b)
  | _, _ => PF.nan

/-- Division; `NaN` propagates.  The scoring code only ever divides by
nonzero literal constants, so rational division is exact here. -/
def PF.div : PF → PF → PF
  | PF.num a, PF.num b => PF.num (a / b)
  | _, _ => PF.nan

instance : Add PF := ⟨PF.add⟩
instance : Sub PF := ⟨PF.sub⟩
instance : Mul PF := ⟨PF.mul⟩
instance : Div PF := ⟨PF.div⟩

/-- Strict less-than: any comparison involving `NaN` is false, exactly as
in Python/IEEE. -/
def pyLt : PF → PF → Prop
  | PF.num a, PF.num b => a < b
  | _, _ => False

instance : ∀ x y : PF, Decidable (pyLt x y) := fun x y =>
  match x, y with
  | PF.num a, PF.num b => (inferInstance : Decidable (a < b))
  | PF.nan, PF.nan => isFalse id
  | PF.nan, PF.num _ => isFalse id
  | PF.num _, PF.nan => isFalse id

/-- Python `min(a, b)`: returns `b` when `b < a`, else `a`.  In particular
`min(c, nan) = c` because `nan < c` is false. -/
def pymin (a b : PF) : PF := if pyLt b a then b else a

/-- Python `max(a, b)`: returns `b` when `a < b`, else `a`.  In particular
`max(c, nan) = c`. -/
def pymax (a b : PF) : PF := if pyLt a b then b else a

/-- Absolute value; `NaN` propagates. -/
def pyabs : PF → PF
  | PF.num a => PF.num |a|
  | PF.nan => PF.nan

/-- pandas `Series.mean()`: missing cells are skipped; the mean of an
empty or all-missing column is `NaN`. -/
def colMean (l : List (Option ℚ)) : PF :=
  let xs := l.filterMap id
  if xs.length = 0 then PF.nan else PF.num (xs.sum / (xs.length : ℚ))

/-- One pitch-type group as a slice of the pitch-data frame.  `Velocity`
and `Total Spin` are always present (the scorer indexes them
unconditionally); the five remaining numeric columns may be absent
(`none`), which the code tests with `in df.columns`. -/
structure DF where
  velocity : List (Option ℚ)
  totalSpin : List (Option ℚ)
  releaseHeight : Option (List (Option ℚ))
  releaseSide : Option (List (Option ℚ))
  horizontalAngle : Option (List (Option ℚ))
  hbTrajectory : Option (List (Option ℚ))
  vbTrajectory : Option (List (Option ℚ))

/-- Velocity weight of the `weights` dict, lines 221-231. -/
def weights_velocity : ℚ := 0.225
/-- Weight of the spin-rate factor. -/
def weights_spin_rate : ℚ := 0.175
/-- Weight of the release-height factor. -/
def weights_release_height : ℚ := 0.125
/-- Weight of the distinctive-shape factor. -/
def weights_distinctive_shape : ℚ := 0.125
/-- Weight of the release-side factor. -/
def weights_release_side : ℚ := 0.085
/-- Weight of the horizontal-break factor. -/
def weights_horizontal_break : ℚ := 0.10
/-- Weight of the vertical-break factor. -/
def weights_vertical_break : ℚ := 0.10
/-- Weight of the speed-differential factor. -/
def weights_speed_diff : ℚ := 0.075
/-- Weight of the horizontal-angle factor. -/
def weights_horizontal_angle : ℚ := 0.05

/-- Sum of all nine factor weights. -/
def weightsSum : ℚ :=
  weights_velocity + weights_spin_rate + weights_release_height +
  weights_distinctive_shape + weights_release_side + weights_horizontal_break +
  weights_vertical_break + weights_speed_diff + weights_horizontal_angle

/-- Lines 243-246: `speed_diff = max(0, player_fastball_velocity - velocity)`
for a non-Fastball pitch with a known reference velocity, else `0`. -/
def speed_diff_value (pitch_type : String) (player_fastball_velocity : Option PF)
    (velocity : PF) : PF :=
  if pitch_type ≠ "Fastball" ∧ player_fastball_velocity.isSome then
    pymax (PF.num 0) (player_fastball_velocity.getD PF.nan - velocity)
  else PF.num 0

/-- Lines 251-257: pitch-type-specific velocity scoring. -/
def velocity_score_of (pitch_type : String) (velocity : PF) : PF :=
  if pitch_type = "Fastball" then
    pymin (PF.num 1) (pymax (PF.num 0) ((velocity - PF.num 70) / PF.num 30))
  else if pitch_type = "ChangeUp" then
    pymin (PF.num 1) (pymax (PF.num 0) ((velocity - PF.num 65) / PF.num 25))
  else
    pymin (PF.num 1) (pymax (PF.num 0) ((velocity - PF.num 65) / PF.num 30))

/-- Lines 259-266: pitch-type-specific spin scoring (inverted with a 0.2
floor for ChangeUp). -/
def spin_score_of (pitch_type : String) (spin_rate : PF) : PF :=
  if pitch_type = "Fastball" then
    pymin (PF.num 1) (pymax (PF.num 0) ((spin_rate - PF.num 1800) / PF.num 1200))
  else if pitch_type = "ChangeUp" then
    pymax (PF.num 0.2) (pymin (PF.num 1) (PF.num 1 - (spin_rate - PF.num 1000) / PF.num 1500))
  else
    pymin (PF.num 1) (pymax (PF.num 0) ((spin_rate - PF.num 2000) / PF.num 1000))

/-- Lines 268-272: deviation of release height from the assumed 5.5 ft
team average, capped at 1. -/
def height_score_of (release_height : PF) : PF :=
  pymin (PF.num 1) (pyabs (release_height - PF.num 5.5) / PF.num 1)

/-- Lines 274-278: deviation of release side from the assumed 0 ft team
average, over a 2 ft range. -/
def side_score_of (release_side : PF) : PF :=
  pymin (PF.num 1) (pyabs (release_side - PF.num 0) / PF.num 2)

/-- Line 281: horizontal-angle score, closer to 0 degrees is better. -/
def angle_score_of (horizontal_angle : PF) : PF :=
  pymax (PF.num 0) (PF.num 1 - pyabs horizontal_angle / PF.num 20)

/-- Line 284: speed-differential score; non-Fastball gets
`min(1, speed_diff / 15)`, Fastball gets the fixed `0.5`. -/
def speed_diff_score_of (pitch_type : String) (speed_diff : PF) : PF :=
  if pitch_type ≠ "Fastball" then pymin (PF.num 1) (speed_diff / PF.num 15)
  else PF.num 0.5

/-- Line 287: horizontal-break score (its argument is already the absolute
value of the column mean). -/
def h_break_score_of (h_break : PF) : PF := pymin (PF.num 1) (h_break / PF.num 20)

/-- Line 288: vertical-break score. -/
def v_break_score_of (v_break : PF) : PF := pymin (PF.num 1) (pyabs v_break / PF.num 20)

/-- Lines 290-292: distinctive-shape score, rewarding divergence of the
break magnitudes. -/
def distinctive_shape_score_of (h_break v_break : PF) : PF :=
  pymin (PF.num 1) (pyabs (h_break - pyabs v_break) / PF.num 15)

/-- Lines 295-305: the weighted composite, expressed over the seven
aggregated metrics of one pitch-type group. -/
def composite_from_metrics (pitch_type : String)
    (velocity spin_rate release_height release_side horizontal_angle h_break v_break : PF)
    (player_fastball_velocity : Option PF) : PF :=
  velocity_score_of pitch_type velocity * PF.num weights_velocity +
  spin_score_of pitch_type spin_rate * PF.num weights_spin_rate +
  height_score_of release_height * PF.num weights_release_height +
  side_score_of release_side * PF.num weights_release_side +
  angle_score_of horizontal_angle * PF.num weights_horizontal_angle +
  speed_diff_score_of pitch_type (speed_diff_value pitch_type player_fastball_velocity velocity) *
    PF.num weights_speed_diff +
  h_break_score_of h_break * PF.num weights_horizontal_break +
  v_break_score_of v_break * PF.num weights_vertical_break +
  distinctive_shape_score_of h_break v_break * PF.num weights_distinctive_shape

/-- Lines 307-311: map the composite onto the Stuff+ scale and clip,
`max(40, min(160, 100 + (composite - 0.5) * 100))`. -/
def stuff_plus_from_metrics (pitch_type : String)
    (velocity spin_rate release_height release_side horizontal_angle h_break v_break : PF)
    (player_fastball_velocity : Option PF) : PF :=
  pymax (PF.num 40) (pymin (PF.num 160)
    (PF.num 100 +
      (composite_from_metrics pitch_type velocity spin_rate release_height release_side
        horizontal_angle h_break v_break player_fastball_velocity - PF.num 0.5) * PF.num 100))

/-- Lines 239 and 358: the aggregated horizontal break, the absolute value
of the column mean, from the expression
`abs(df[...HB (trajectory)...].mean())`, defaulting to 0 when the column
is absent.  Used both inside the scorer and as the reported `avg_h_break`. -/
def avg_h_break (hb : Option (List (Option ℚ))) : PF :=
  match hb with
  | some c => pyabs (colMean c)
  | none => PF.num 0

/-- Lines 234-246 with 295-305: the weighted composite of one group, the
seven aggregated metrics (with the coded defaults for absent columns)
fed into the factor scores. -/
def composite_score (df : DF) (pitch_type : String)
    (player_fastball_velocity : Option PF) : PF :=
  composite_from_metrics pitch_type
    (colMean df.velocity)
    (colMean df.totalSpin)
    (match df.releaseHeight with | some c => colMean c | none => PF.num 5.5)
    (match df.releaseSide with | some c => colMean c | none => PF.num 0)
    (match df.horizontalAngle with | some c => colMean c | none => PF.num 0)
    (avg_h_break df.hbTrajectory)
    (match df.vbTrajectory with | some c => colMean c | none => PF.num 0)
    player_fastball_velocity

/-- Lines 185-313: the full per-group Stuff+ scorer. -/
def calculate_bonnies_stuff_plus_for_pitch_type (df : DF) (pitch_type : String)
    (player_fastball_velocity : Option PF) : PF :=
  stuff_plus_from_metrics pitch_type
    (colMean df.velocity)
    (colMean df.totalSpin)
    (match df.releaseHeight with | some c => colMean c | none => PF.num 5.5)
    (match df.releaseSide with | some c => colMean c | none => PF.num 0)
    (match df.horizontalAngle with | some c => colMean c | none => PF.num 0)
    (avg_h_break df.hbTrajectory)
    (match df.vbTrajectory with | some c => colMean c | none => PF.num 0)
    player_fastball_velocity

/-- Insert a rational into a sorted list, keeping it sorted. -/
def insertSorted (x : ℚ) : List ℚ → List ℚ
  | [] => [x]
  | y :: ys => if x ≤ y then x :: y :: ys else y :: insertSorted x ys

/-- Insertion sort of a rational list (model of the sort performed
internally by the pandas quantile computation). -/
def sortQ : List ℚ → List ℚ
  | [] => []
  | x :: xs => insertSorted x (sortQ xs)

/-- pandas `Series.quantile(q)` with the default linear interpolation: at
position `h = q * (n - 1)` in the sorted data, interpolate between the
neighbouring order statistics. -/
def quantile (q : ℚ) (data : List ℚ) : ℚ :=
  let s := sortQ data
  let h := q * ((s.length : ℚ) - 1)
  let j := (Int.floor h).toNat
  let g := h - (j : ℚ)
  let xj := s.getD j 0
  xj + g * (s.getD (j + 1) xj - xj)

/-- Line 2207: the values kept by the 2-IQR fences,
`data[(data >= lower_bound) & (data <= upper_bound)]`. -/
def summaryFiltered (data : List ℚ) : List ℚ :=
  data.filter fun x =>
    decide (quantile 0.25 data - 2 * (quantile 0.75 data - quantile 0.25 data) ≤ x ∧
      x ≤ quantile 0.75 data + 2 * (quantile 0.75 data - quantile 0.25 data))

/-- Lines 2199-2209: the robust outlier filter used for summary statistics.
With fewer than 3 points or a zero IQR the series is returned unchanged;
otherwise values outside the 2-IQR fences are dropped unless that would
leave nothing, in which case the original series is returned. -/
def remove_outliers_for_summary (data : List ℚ) : List ℚ :=
  if 3 ≤ data.length then
    if 0 < quantile 0.75 data - quantile 0.25 data then
      if 1 ≤ (summaryFiltered data).length then summaryFiltered data else data
    else data
  else data

/-- One raw pitch record, restricted to the columns the grouping and
reference-velocity computations read: the `Pitch Type` label (possibly
missing) and the parsed `Velocity`. -/
structure PitchRecord where
  pitchType : Option String
  velocity : Option ℚ
deriving DecidableEq

/-- Lines 140-142: a record survives the validity filter when its
`Pitch Type` is present, not `"-"` and not empty. -/
def validPitchType : Option String → Bool
  | none => false
  | some s => decide (s ≠ "-") && decide (s ≠ "")

/-- Check that the first character list starts the second one. -/
def hasPrefixL : List Char → List Char → Bool
  | [], _ => true
  | _ :: _, [] => false
  | a :: as, b :: bs => a == b && hasPrefixL as bs

/-- Check that `pat` occurs as a contiguous substring of the second list. -/
def hasSubstrL (pat : List Char) : List Char → Bool
  | [] => pat.isEmpty
  | c :: rest => hasPrefixL pat (c :: rest) || hasSubstrL pat rest

/-- Line 321: `str.contains("Fastball", case=False, na=False)` on one
cell: missing labels never match; otherwise a case-insensitive substring
test. -/
def containsFastballCI (pt : Option String) : Bool :=
  match pt with
  | none => false
  | some s => hasSubstrL ("Fastball".toList.map Char.toLower) (s.toList.map Char.toLower)

/-- Lines 320-322: the rows feeding the reference fastball velocity,
selected by case-insensitive substring match. -/
def fastball_reference_data (l : List PitchRecord) : List PitchRecord :=
  l.filter fun r => containsFastballCI r.pitchType

/-- Lines 335-339: the rows of one pitch-type group, selected by exact
membership of the label in the variant list of the category (`isin`; a
missing label matches nothing). -/
def group_data (variants : List String) (l : List PitchRecord) : List PitchRecord :=
  l.filter fun r =>
    match r.pitchType with
    | none => false
    | some s => decide (s ∈ variants)

/-- Line 323: the reference fastball velocity, `None` when no label
contains "Fastball", otherwise the mean velocity of the matching rows
(itself possibly `NaN`). -/
def player_fastball_velocity (l : List PitchRecord) : Option PF :=
  if 0 < (fastball_reference_data l).length then
    some (colMean ((fastball_reference_data l).map PitchRecord.velocity))
  else none

/-- The aggregation the spec describes for horizontal break - the mean
over the records of the absolute value of each break - written from the
spec wording for comparison against the coded `avg_h_break`. -/
def mean_abs_h_break (c : List (Option ℚ)) : PF := colMean (c.map (Option.map abs))

/-- A group whose Velocity column holds no parsable value: its mean
velocity is `NaN`. -/
def dfNanVel : DF := ⟨[none], [some 2400], none, none, none, none, none⟩

/-- A single-pitch Fastball group tuned so that the weighted composite is
exactly 0.5: velocity 85, spin 2400, release height 6.26, release side 1,
horizontal angle 10, both breaks 10. -/
def dfHalf : DF := ⟨[some 85], [some 2400], some [some (313/50)], some [some 1],
  some [some 10], some [some 10], some [some 10]⟩

/-- A record labelled with lowercase "fastball". -/
def rFastballLower : PitchRecord := ⟨some "fastball", some 90⟩

/-- A record labelled "Fastball (2-seam)", a strict superstring of the
vendor label. -/
def rTwoSeam : PitchRecord := ⟨some "Fastball (2-seam)", some 95⟩

/-- A two-record data set exercising both matching rules. -/
def recs9 : List PitchRecord := [rFastballLower, rTwoSeam]

@[simp] theorem pyLt_num_num (a b : ℚ) : pyLt (PF.num a) (PF.num b) ↔ a < b := Iff.rfl

@[simp] theorem pyLt_nan_left (y : PF) : ¬ pyLt PF.nan y := by cases y <;> exact id

@[simp] theorem pyLt_nan_right (x : PF) : ¬ pyLt x PF.nan := by cases x <;> exact id

@[simp] theorem PF.num_add (a b : ℚ) : PF.num a + PF.num b = PF.num (a + b) := rfl

@[simp] theorem PF.num_sub (a b : ℚ) : PF.num a - PF.num b = PF.num (a - b) := rfl

@[simp] theorem PF.num_mul (a b : ℚ) : PF.num a * PF.num b = PF.num (a * b) := rfl

@[simp] theorem PF.num_div (a b : ℚ) : PF.num a / PF.num b = PF.num (a / b) := rfl

@[simp] theorem pyabs_num (a : ℚ) : pyabs (PF.num a) = PF.num |a| := rfl

@[simp] theorem nan_sub (x : PF) : PF.nan - x = PF.nan := rfl

@[simp] theorem sub_nan (x : PF) : x - PF.nan = PF.nan := by cases x <;> rfl

@[simp] theorem nan_add (x : PF) : PF.nan + x = PF.nan := rfl

@[simp] theorem add_nan (x : PF) : x + PF.nan = PF.nan := by cases x <;> rfl

@[simp] theorem nan_mul (x : PF) : PF.nan * x = PF.nan := rfl

@[simp] theorem mul_nan (x : PF) : x * PF.nan = PF.nan := by cases x <;> rfl

@[simp] theorem nan_div (x : PF) : PF.nan / x = PF.nan := rfl

@[simp] theorem div_nan (x : PF) : x / PF.nan = PF.nan := by cases x <;> rfl

@[simp] theorem pyabs_nan : pyabs PF.nan = PF.nan := rfl

theorem pymin_num_left (a : ℚ) (x : PF) : ∃ b : ℚ, pymin (PF.num a) x = PF.num b := by
  cases x with
  | nan => exact ⟨a, by simp [pymin]⟩
  | num c =>
    unfold pymin
    by_cases h : pyLt (PF.num c) (PF.num a)
    · exact ⟨c, if_pos h⟩
    · exact ⟨a, if_neg h⟩

theorem pymax_num_left (a : ℚ) (x : PF) : ∃ b : ℚ, pymax (PF.num a) x = PF.num b := by
  cases x with
  | nan => exact ⟨a, by simp [pymax]⟩
  | num c =>
    unfold pymax
    by_cases h : pyLt (PF.num a) (PF.num c)
    · exact ⟨c, if_pos h⟩
    · exact ⟨a, if_neg h⟩

theorem velocity_score_isNum (pt : String) (v : PF) :
    ∃ b : ℚ, velocity_score_of pt v = PF.num b := by
  unfold velocity_score_of
  split_ifs <;> exact pymin_num_left 1 _

theorem spin_score_isNum (pt : String) (s : PF) :
    ∃ b : ℚ, spin_score_of pt s = PF.num b := by
  unfold spin_score_of
  split_ifs
  · exact pymin_num_left 1 _
  · exact pymax_num_left 0.2 _
  · exact pymin_num_left 1 _

theorem height_score_isNum (x : PF) : ∃ b : ℚ, height_score_of x = PF.num b :=
  pymin_num_left 1 _

theorem side_score_isNum (x : PF) : ∃ b : ℚ, side_score_of x = PF.num b :=
  pymin_num_left 1 _

theorem angle_score_isNum (x : PF) : ∃ b : ℚ, angle_score_of x = PF.num b :=
  pymax_num_left 0 _

theorem speed_diff_score_isNum (pt : String) (x : PF) :
    ∃ b : ℚ, speed_diff_score_of pt x = PF.num b := by
  unfold speed_diff_score_of
  split_ifs
  · exact pymin_num_left 1 _
  · exact ⟨0.5, rfl⟩

theorem h_break_score_isNum (x : PF) : ∃ b : ℚ, h_break_score_of x = PF.num b :=
  pymin_num_left 1 _

theorem v_break_score_isNum (x : PF) : ∃ b : ℚ, v_break_score_of x = PF.num b :=
  pymin_num_left 1 _

theorem distinctive_shape_score_isNum (x y : PF) :
    ∃ b : ℚ, distinctive_shape_score_of x y = PF.num b :=
  pymin_num_left 1 _

theorem composite_isNum (pt : String)
    (v s rh rs ha hb vb : PF) (pfv : Option PF) :
    ∃ c : ℚ, composite_from_metrics pt v s rh rs ha hb vb pfv = PF.num c := by
  obtain ⟨b1, h1⟩ := velocity_score_isNum pt v
  obtain ⟨b2, h2⟩ := spin_score_isNum pt s
  obtain ⟨b3, h3⟩ := height_score_isNum rh
  obtain ⟨b4, h4⟩ := side_score_isNum rs
  obtain ⟨b5, h5⟩ := angle_score_isNum ha
  obtain ⟨b6, h6⟩ := speed_diff_score_isNum pt (speed_diff_value pt pfv v)
  obtain ⟨b7, h7⟩ := h_break_score_isNum hb
  obtain ⟨b8, h8⟩ := v_break_score_isNum vb
  obtain ⟨b9, h9⟩ := distinctive_shape_score_isNum hb vb
  refine ⟨b1 * weights_velocity + b2 * weights_spin_rate + b3 * weights_release_height +
    b4 * weights_release_side + b5 * weights_horizontal_angle + b6 * weights_speed_diff +
    b7 * weights_horizontal_break + b8 * weights_vertical_break +
    b9 * weights_distinctive_shape, ?_⟩
  simp only [composite_from_metrics, h1, h2, h3, h4, h5, h6, h7, h8, h9,
    PF.num_mul, PF.num_add]

theorem clip_bounds (q : ℚ) :
    ∃ r : ℚ, pymax (PF.num 40) (pymin (PF.num 160) (PF.num q)) = PF.num r ∧
      40 ≤ r ∧ r ≤ 160 := by
  unfold pymin pymax
  by_cases h1 : pyLt (PF.num q) (PF.num 160)
  · rw [if_pos h1]
    by_cases h2 : pyLt (PF.num 40) (PF.num q)
    · rw [if_pos h2]
      exact ⟨q, rfl, le_of_lt (pyLt_num_num 40 q |>.mp h2),
        le_of_lt (pyLt_num_num q 160 |>.mp h1)⟩
    · rw [if_neg h2]
      exact ⟨40, rfl, le_refl 40, by norm_num⟩
  · rw [if_neg h1]
    rw [if_pos (show pyLt (PF.num 40) (PF.num 160) by norm_num)]
    exact ⟨160, rfl, by norm_num, le_refl 160⟩

theorem stuff_plus_bounds (pt : String)
    (v s rh rs ha hb vb : PF) (pfv : Option PF) :
    ∃ q : ℚ, stuff_plus_from_metrics pt v s rh rs ha hb vb pfv = PF.num q ∧
      40 ≤ q ∧ q ≤ 160 := by
  obtain ⟨c, hc⟩ := composite_isNum pt v s rh rs ha hb vb pfv
  obtain ⟨r, hr, h40, h160⟩ := clip_bounds (100 + (c - 0.5) * 100)
  refine ⟨r, ?_, h40, h160⟩
  unfold stuff_plus_from_metrics
  rw [hc]
  simp only [PF.num_sub, PF.num_mul, PF.num_add]
  exact hr

theorem remove_outliers_sublist (data : List ℚ) :
    (remove_outliers_for_summary data).Sublist data := by
  unfold remove_outliers_for_summary
  split_ifs
  · exact List.filter_sublist data
  · exact List.Sublist.refl data
  · exact List.Sublist.refl data
  · exact List.Sublist.refl data

theorem q25_five : quantile 0.25 [0, 0, 0, 1, 100] = 0 := by
  norm_num [quantile, sortQ, insertSorted, show ((1:ℤ).toNat = 1) from rfl,
    List.getD_cons_zero, List.getD_cons_succ, List.getD_nil,
    List.getElem_cons_succ, List.getElem_cons_zero]

theorem q75_five : quantile 0.75 [0, 0, 0, 1, 100] = 1 := by
  norm_num [quantile, sortQ, insertSorted, show ((3:ℤ).toNat = 3) from rfl,
    List.getD_cons_zero, List.getD_cons_succ, List.getD_nil,
    List.getElem_cons_succ, List.getElem_cons_zero]

theorem routl_five : remove_outliers_for_summary [0, 0, 0, 1, 100] = [0, 0, 0, 1] := by
  simp only [remove_outliers_for_summary, summaryFiltered, q25_five, q75_five]
  norm_num [List.filter_cons, List.filter_nil]

theorem q25_four : quantile 0.25 [0, 0, 0, 1] = 0 := by
  norm_num [quantile, sortQ, insertSorted, show ((0:ℤ).toNat = 0) from rfl,
    List.getD_cons_zero, List.getD_cons_succ, List.getD_nil,
    List.getElem_cons_succ, List.getElem_cons_zero]

theorem q75_four : quantile 0.75 [0, 0, 0, 1] = 1/4 := by
  norm_num [quantile, sortQ, insertSorted, show ((2:ℤ).toNat = 2) from rfl,
    List.getD_cons_zero, List.getD_cons_succ, List.getD_nil,
    List.getElem_cons_succ, List.getElem_cons_zero]

theorem routl_four : remove_outliers_for_summary [0, 0, 0, 1] = [0, 0, 0] := by
  simp only [remove_outliers_for_summary, summaryFiltered, q25_four, q75_four]
  norm_num [List.filter_cons, List.filter_nil]

/-- C1 counterexample: a ChangeUp group with unknown reference fastball
velocity receives a speed-differential factor of 0, not the fixed 0.5
fallback that a Fastball group receives. -/
theorem speed_diff_none_not_half :
    speed_diff_score_of "ChangeUp" (speed_diff_value "ChangeUp" none (PF.num 78)) = PF.num 0 ∧
    speed_diff_score_of "ChangeUp" (speed_diff_value "ChangeUp" none (PF.num 78)) ≠ PF.num 0.5 ∧
    speed_diff_score_of "Fastball" (speed_diff_value "Fastball" none (PF.num 95)) = PF.num 0.5 := by
  norm_num [speed_diff_score_of, speed_diff_value, pymin, pymax]
  decide

/-- C1 (amended): for every non-Fastball pitch type with an unknown
(`None`) reference fastball velocity, the speed-differential factor
entering the weighted composite is 0 - the `speed_diff` local defaults to
0 and the factor becomes `min(1, 0 / 15) = 0` - not the fixed 0.5 that
only a Fastball group receives. -/
theorem speed_diff_none_factor_zero (pt : String) (v : PF) (h : pt ≠ "Fastball") :
    speed_diff_score_of pt (speed_diff_value pt none v) = PF.num 0 := by
  norm_num [speed_diff_value, speed_diff_score_of, h, pymin]

/-- C1 witness: the amended statement instantiated at a ChangeUp group. -/
theorem speed_diff_none_factor_zero_witness :
    ("ChangeUp" : String) ≠ "Fastball" ∧
    speed_diff_score_of "ChangeUp" (speed_diff_value "ChangeUp" none (PF.num 78)) = PF.num 0 :=
  ⟨by decide, speed_diff_none_factor_zero "ChangeUp" (PF.num 78) (by decide)⟩

/-- C2 counterexample: the nine fixed factor weights do not sum to 1. -/
theorem weightsSum_ne_one : weightsSum ≠ 1 := by
  norm_num [weightsSum, weights_velocity, weights_spin_rate, weights_release_height,
    weights_distinctive_shape, weights_release_side, weights_horizontal_break,
    weights_vertical_break, weights_speed_diff, weights_horizontal_angle]

/-- C2 (amended): the nine fixed factor weights sum to exactly 1.06, not
1.0 as claimed. -/
theorem weightsSum_eq_one_point_06 : weightsSum = 1.06 := by
  norm_num [weightsSum, weights_velocity, weights_spin_rate, weights_release_height,
    weights_distinctive_shape, weights_release_side, weights_horizontal_break,
    weights_vertical_break, weights_speed_diff, weights_horizontal_angle]

/-- C3 counterexample: for a group with horizontal breaks 10 and -10 the
coded aggregate is `abs(mean) = 0` while the mean of absolute values is
10, so the aggregated value is not the mean absolute horizontal break. -/
theorem avg_h_break_ne_mean_abs :
    avg_h_break (some [some 10, some (-10)]) = PF.num 0 ∧
    mean_abs_h_break [some 10, some (-10)] = PF.num 10 ∧
    avg_h_break (some [some 10, some (-10)]) ≠ mean_abs_h_break [some 10, some (-10)] := by
  norm_num [avg_h_break, mean_abs_h_break, colMean, List.filterMap_cons, List.filterMap_nil]

/-- C3 (amended): the aggregated horizontal break is the absolute value
of the mean of the signed breaks; it coincides with the mean of the
absolute breaks exactly when cancellation cannot occur, e.g. whenever all
recorded breaks share a sign (here: all nonnegative). -/
theorem avg_h_break_eq_mean_abs_of_nonneg (c : List (Option ℚ))
    (h : ∀ x ∈ c.filterMap id, 0 ≤ x) :
    avg_h_break (some c) = mean_abs_h_break c := by
  have hmap : ∀ l : List (Option ℚ),
      (l.map (Option.map abs)).filterMap id = (l.filterMap id).map abs := by
    intro l
    induction l with
    | nil => rfl
    | cons hd tl ih => cases hd <;> simp [ih]
  have habs : (c.filterMap id).map abs = c.filterMap id := by
    rw [List.map_congr_left (fun x hx => abs_of_nonneg (h x hx)), List.map_id']
  unfold avg_h_break mean_abs_h_break colMean
  rw [hmap, habs]
  by_cases hlen : (c.filterMap id).length = 0
  · simp [hlen]
  · have hsum : 0 ≤ (c.filterMap id).sum / ((c.filterMap id).length : ℚ) :=
      div_nonneg (List.sum_nonneg h) (by positivity)
    simp [hlen, abs_of_nonneg hsum]

/-- C3 witness: the amended statement instantiated at an all-nonnegative
column with a missing cell. -/
theorem avg_h_break_eq_mean_abs_witness :
    (∀ x ∈ List.filterMap id [some (3:ℚ), none, some 5], 0 ≤ x) ∧
    avg_h_break (some [some 3, none, some 5]) = mean_abs_h_break [some 3, none, some 5] :=
  ⟨by decide, avg_h_break_eq_mean_abs_of_nonneg [some 3, none, some 5] (by decide)⟩

/-- C4 counterexample: a group whose mean velocity is `NaN` still gets a
finite Stuff+ score (67.5 here): `max(0.0, nan)` evaluates to `0.0` under
the Python argument order, so the `NaN` never reaches the final clip. -/
theorem nan_velocity_finite_score :
    colMean dfNanVel.velocity = PF.nan ∧
    calculate_bonnies_stuff_plus_for_pitch_type dfNanVel "Fastball" none = PF.num (135/2) := by
  constructor
  · rfl
  · norm_num [dfNanVel, calculate_bonnies_stuff_plus_for_pitch_type, stuff_plus_from_metrics,
      composite_from_metrics, velocity_score_of, spin_score_of, height_score_of, side_score_of,
      angle_score_of, speed_diff_score_of, speed_diff_value, h_break_score_of, v_break_score_of,
      distinctive_shape_score_of, avg_h_break, colMean, pymin, pymax,
      List.filterMap_cons, List.filterMap_nil,
      weights_velocity, weights_spin_rate, weights_release_height, weights_distinctive_shape,
      weights_release_side, weights_horizontal_break, weights_vertical_break, weights_speed_diff,
      weights_horizontal_angle]

/-- C4 (amended): even when the mean velocity of a group is `NaN` the
scorer returns a finite score inside [40, 160]; every factor is clipped
with the finite constant as first `min`/`max` argument, so `NaN` is
silently coerced to a finite factor and never propagates to the result. -/
theorem score_finite_of_nan_velocity (df : DF) (pt : String) (pfv : Option PF)
    (_hnan : colMean df.velocity = PF.nan) :
    ∃ q : ℚ, calculate_bonnies_stuff_plus_for_pitch_type df pt pfv = PF.num q ∧
      40 ≤ q ∧ q ≤ 160 := by
  unfold calculate_bonnies_stuff_plus_for_pitch_type
  exact stuff_plus_bounds pt _ _ _ _ _ _ _ pfv

/-- C4 witness: the amended statement instantiated at a group with no
parsable velocity. -/
theorem score_finite_of_nan_velocity_witness :
    colMean dfNanVel.velocity = PF.nan ∧
    ∃ q : ℚ, calculate_bonnies_stuff_plus_for_pitch_type dfNanVel "Fastball" none = PF.num q ∧
      40 ≤ q ∧ q ≤ 160 :=
  ⟨rfl, score_finite_of_nan_velocity dfNanVel "Fastball" none rfl⟩

/-- C5: for every pitch-type group whose weighted composite equals exactly
0.5, the mapped Stuff+ score is exactly 100. -/
theorem stuff_plus_at_half_composite (df : DF) (pt : String) (pfv : Option PF)
    (h : composite_score df pt pfv = PF.num 0.5) :
    calculate_bonnies_stuff_plus_for_pitch_type df pt pfv = PF.num 100 := by
  have e : calculate_bonnies_stuff_plus_for_pitch_type df pt pfv =
      pymax (PF.num 40) (pymin (PF.num 160)
        (PF.num 100 + (composite_score df pt pfv - PF.num 0.5) * PF.num 100)) := rfl
  rw [e, h]
  norm_num [pymin, pymax]

/-- C5 witness: a concrete Fastball group whose composite is exactly 0.5
and whose score is exactly 100. -/
theorem stuff_plus_at_half_composite_witness :
    composite_score dfHalf "Fastball" none = PF.num 0.5 ∧
    calculate_bonnies_stuff_plus_for_pitch_type dfHalf "Fastball" none = PF.num 100 := by
  have h : composite_score dfHalf "Fastball" none = PF.num 0.5 := by
    norm_num [dfHalf, composite_score, composite_from_metrics, velocity_score_of, spin_score_of,
      height_score_of, side_score_of, angle_score_of, speed_diff_score_of, speed_diff_value,
      h_break_score_of, v_break_score_of, distinctive_shape_score_of, avg_h_break, colMean,
      pymin, pymax, List.filterMap_cons, List.filterMap_nil, abs_of_nonneg, abs_of_nonpos,
      weights_velocity, weights_spin_rate, weights_release_height, weights_distinctive_shape,
      weights_release_side, weights_horizontal_break, weights_vertical_break, weights_speed_diff,
      weights_horizontal_angle]
  exact ⟨h, stuff_plus_at_half_composite dfHalf "Fastball" none h⟩

/-- C6: for any finite aggregated metrics (all nine factors fed finite
rational inputs, varied independently) and any pitch type and reference
velocity, the Stuff+ score is a finite value in [40, 160]. -/
theorem stuff_plus_in_range (pt : String) (pfv : Option PF) (v s rh rs ha hb vb : ℚ) :
    ∃ q : ℚ, stuff_plus_from_metrics pt (PF.num v) (PF.num s) (PF.num rh) (PF.num rs)
      (PF.num ha) (PF.num hb) (PF.num vb) pfv = PF.num q ∧ 40 ≤ q ∧ q ≤ 160 :=
  stuff_plus_bounds pt _ _ _ _ _ _ _ pfv

/-- C7 counterexample: the outlier filter is not idempotent - filtering
the series [0, 0, 0, 1, 100] gives [0, 0, 0, 1], and filtering again
strictly shrinks it to [0, 0, 0]. -/
theorem remove_outliers_not_idempotent :
    remove_outliers_for_summary (remove_outliers_for_summary [0, 0, 0, 1, 100]) ≠
      remove_outliers_for_summary [0, 0, 0, 1, 100] := by
  rw [routl_five, routl_four]
  decide

/-- C7 (amended): the outlier filter is not idempotent - a second
application can strictly shrink an already-filtered series - but each
application returns a subsequence of its input, so the twice-filtered
series is always a subsequence of the once-filtered one. -/
theorem remove_outliers_twice_sublist (data : List ℚ) :
    (remove_outliers_for_summary (remove_outliers_for_summary data)).Sublist
      (remove_outliers_for_summary data) :=
  remove_outliers_sublist _

/-- C8: for every non-empty series the outlier filter returns a non-empty
series; with fewer than 3 observations or with zero IQR the series is
returned unmodified, and whenever the 2-IQR rejection would leave zero
values the rejection is discarded and the original series returned. -/
theorem remove_outliers_nonempty_behavior (data : List ℚ) (hne : data ≠ []) :
    remove_outliers_for_summary data ≠ [] ∧
    (data.length < 3 → remove_outliers_for_summary data = data) ∧
    (quantile 0.75 data - quantile 0.25 data = 0 → remove_outliers_for_summary data = data) ∧
    (summaryFiltered data = [] → remove_outliers_for_summary data = data) := by
  unfold remove_outliers_for_summary
  refine ⟨?_, ?_, ?_, ?_⟩
  · split_ifs with h1 h2 h3
    · exact List.ne_nil_of_length_pos h3
    · exact hne
    · exact hne
    · exact hne
  · intro hlen
    rw [if_neg (by omega)]
  · intro hiqr
    split_ifs with h1 h2 h3 <;> first
      | rfl
      | (exfalso; rw [hiqr] at h2; exact lt_irrefl 0 h2)
  · intro hf
    split_ifs with h1 h2 h3 <;> first
      | rfl
      | (exfalso; rw [hf] at h3; exact absurd h3 (by norm_num))

/-- C8 witness: the statement instantiated at three concrete series, one
per branch - a 3-point filtering run, a short series, and a zero-IQR
series. -/
theorem remove_outliers_nonempty_behavior_witness :
    remove_outliers_for_summary [1, 2, 4] ≠ [] ∧
    remove_outliers_for_summary [5] = [5] ∧
    remove_outliers_for_summary [1, 1, 1] = [1, 1, 1] := by
  refine ⟨(remove_outliers_nonempty_behavior [1, 2, 4] (by decide)).1,
    (remove_outliers_nonempty_behavior [5] (by decide)).2.1 (by decide),
    (remove_outliers_nonempty_behavior [1, 1, 1] (by decide)).2.2.1 ?_⟩
  norm_num [quantile, sortQ, insertSorted, show ((1:ℤ).toNat = 1) from rfl,
    show ((0:ℤ).toNat = 0) from rfl, List.getD_cons_zero, List.getD_cons_succ, List.getD_nil,
    List.getElem_cons_succ, List.getElem_cons_zero]

/-- C9: grouping and reference-velocity computation use different
matching rules over the same record set - a record labelled lowercase
"fastball" is never in the exact-match "Fastball" group, while every
valid record whose label contains "Fastball" case-insensitively is
included in the reference-velocity data. -/
theorem grouping_vs_reference_matching (l : List PitchRecord) (r : PitchRecord)
    (hmem : r ∈ l) :
    (r.pitchType = some "fastball" → r ∉ group_data ["Fastball"] l) ∧
    (validPitchType r.pitchType = true → containsFastballCI r.pitchType = true →
      r ∈ fastball_reference_data l) := by
  constructor
  · intro hpt hg
    have hp := (List.mem_filter.mp hg).2
    rw [hpt] at hp
    exact absurd hp (by decide)
  · intro _ hc
    exact List.mem_filter.mpr ⟨hmem, hc⟩

/-- C9 witness: on a concrete two-record set, the lowercase "fastball"
record is excluded from the "Fastball" group while the
"Fastball (2-seam)" record enters the reference-velocity data. -/
theorem grouping_vs_reference_matching_witness :
    (rFastballLower ∈ recs9 ∧ rFastballLower.pitchType = some "fastball" ∧
      rFastballLower ∉ group_data ["Fastball"] recs9) ∧
    (rTwoSeam ∈ recs9 ∧ validPitchType rTwoSeam.pitchType = true ∧
      containsFastballCI rTwoSeam.pitchType = true ∧
      rTwoSeam ∈ fastball_reference_data recs9) := by
  constructor
  · exact ⟨by decide, rfl,
      (grouping_vs_reference_matching recs9 rFastballLower (by decide)).1 rfl⟩
  · exact ⟨by decide, by decide, by decide,
      (grouping_vs_reference_matching recs9 rTwoSeam (by decide)).2 (by decide) (by decide)⟩

/-- C10: the Stuff+ score of a group scored under the "Fastball" category
does not depend on the reference fastball velocity argument: the only use
of that argument is guarded by the pitch type not being "Fastball". -/
theorem fastball_score_ref_independent (df : DF) (r1 r2 : Option PF) :
    calculate_bonnies_stuff_plus_for_pitch_type df "Fastball" r1 =
      calculate_bonnies_stuff_plus_for_pitch_type df "Fastball" r2 := by
  simp [calculate_bonnies_stuff_plus_for_pitch_type, stuff_plus_from_metrics,
    composite_from_metrics, speed_diff_value]
